import Mathlib

/-
Shallow embedding of src/src/game.cpp, a three-lane arcade game: a
spaceship switches lanes at the bottom of the window while a comet falls
from the top; the game ends when the comet reaches the vertical band of
the spaceship while occupying the same lane.

Conventions of the embedding:
* float and glm vec3 coordinates are modelled as exact rationals (Rat);
  every coordinate the program ever computes comes from the discrete lane
  formula or from constants, never from accumulation into a compared value.
* GLuint values are modelled as Nat; the C++ conversion from int to GLuint
  is the explicit wrap toGLuint (reduction modulo 2 ^ 32).
* The C library call rand() is modelled by an explicit nonnegative
  argument r : Nat; the code only ever uses rand() modulo 3.
* The global mutable variables (spaceship, comet, gameOver, spaceshipLane)
  become the record GameState, passed explicitly.
* The call stbi_load is modelled by an Option ImageData argument (the
  decode result) and glGenTextures by a Nat argument; loadTexture returns
  the texture id paired with the list of diagnostic lines it printed. Its
  return statement narrows the GLuint texID to the int return type, the
  explicit wrap toGLint (two pow 32 complement).
-/

/-- Vector with three exact rational components, standing for glm vec3. -/
structure Vec3 where
  x : ℚ
  y : ℚ
  z : ℚ
deriving DecidableEq, Repr

/-- The Sprite struct of game.cpp. -/
structure Sprite where
  VAO : Nat
  texID : Nat
  position : Vec3
  dimensions : Vec3
  angle : ℚ
deriving DecidableEq, Repr

/-- Member function setupSprite of Sprite: sets texture, position and
dimensions, resets the angle to 0. -/
def Sprite.setupSprite (s : Sprite) (textureID : Nat) (pos dim : Vec3) : Sprite :=
  { s with texID := textureID, position := pos, dimensions := dim, angle := 0 }

/-- Constant WIDTH = 800, the window width. -/
def WIDTH : ℚ := 800

/-- Constant HEIGHT = 600, the window height. -/
def HEIGHT : ℚ := 600

/-- Constant LANE_WIDTH = WIDTH / 3. -/
def LANE_WIDTH : ℚ := WIDTH / 3

/-- The lane-center formula LANE_WIDTH / 2 + lane * LANE_WIDTH used by both
moveSpaceship and resetComet. -/
def laneCenter (lane : Int) : ℚ := LANE_WIDTH / 2 + (lane : ℚ) * LANE_WIDTH

/-- The four global variables of game.cpp gathered into one record:
the spaceship sprite, the comet sprite, the flag gameOver (initially false)
and the int spaceshipLane (initially 1). -/
structure GameState where
  spaceship : Sprite
  comet : Sprite
  gameOver : Bool
  spaceshipLane : Int
deriving DecidableEq, Repr

/-- Function moveSpaceship(int lane): stores the lane and snaps the
spaceship x to the lane center. No check of any kind is performed. -/
def moveSpaceship (lane : Int) (st : GameState) : GameState :=
  { st with
    spaceshipLane := lane
    spaceship := { st.spaceship with
      position := { st.spaceship.position with x := laneCenter lane } } }

/-- Function resetComet(): re-rolls the comet to lane rand() modulo 3 at the
top of the screen; r stands for the rand() draw. -/
def resetComet (r : Nat) (st : GameState) : GameState :=
  let lane : Int := (r % 3 : Nat)
  { st with
    comet := st.comet.setupSprite st.comet.texID
      ⟨laneCenter lane, HEIGHT + 50, 0⟩ ⟨50, 50, 1⟩ }

/-- Function updateGame(float deltaTime): move the comet down by
300 * deltaTime, then test the lane-based collision and set gameOver, then
respawn the comet if it fell below -50. The argument r stands for the
rand() draw a respawn consumes. -/
def updateGame (deltaTime : ℚ) (r : Nat) (st : GameState) : GameState :=
  let st1 := { st with comet := { st.comet with
    position := { st.comet.position with
      y := st.comet.position.y - 300 * deltaTime } } }
  let st2 :=
    if st1.comet.position.y < st1.spaceship.position.y + st1.spaceship.dimensions.y ∧
       st1.comet.position.y > st1.spaceship.position.y - st1.comet.dimensions.y ∧
       st1.comet.position.x = st1.spaceship.position.x
    then { st1 with gameOver := true }
    else st1
  if st2.comet.position.y < -50 then resetComet r st2 else st2

/-- The two keys the game reacts to, plus any other key. -/
inductive Key where
  | left
  | right
  | other
deriving DecidableEq, Repr

/-- GLFW key actions: a press, or anything else (release or repeat). -/
inductive KeyAction where
  | press
  | release
deriving DecidableEq, Repr

/-- Function key_callback: on a press, a left key at lane above 0 moves one
lane left and a right key at lane below 2 moves one lane right; the two
tests are sequential ifs, as in the source. No game-over check is
performed. -/
def key_callback (key : Key) (action : KeyAction) (st : GameState) : GameState :=
  if action = KeyAction.press then
    let st1 :=
      if key = Key.left ∧ st.spaceshipLane > 0
      then moveSpaceship (st.spaceshipLane - 1) st
      else st
    if key = Key.right ∧ st1.spaceshipLane < 2
    then moveSpaceship (st1.spaceshipLane + 1) st1
    else st1
  else st

/-- Decoded-image data as stbi_load yields it (width, height, nrChannels);
a decode failure is modelled by the absence of this data. -/
structure ImageData where
  width : Int
  height : Int
  nrChannels : Int
deriving DecidableEq, Repr

/-- The diagnostic line loadTexture prints on a decode failure. -/
def failMsg (filePath : String) : String :=
  "Failed to load texture: " ++ filePath

/-- The C++ conversion from GLuint to int, as in the return statement of
loadTexture, whose declared return type is int but whose success path
returns the GLuint texID: the 32-bit value is reinterpreted in two-sided
complement, so values of 2 ^ 31 and above come out negative and the value
2 ^ 32 - 1 comes out as -1. -/
def toGLint (n : Nat) : Int :=
  if n % 2 ^ 32 < 2 ^ 31 then ((n % 2 ^ 32 : Nat) : Int)
  else ((n % 2 ^ 32 : Nat) : Int) - 2 ^ 32

/-- Function loadTexture(filePath): on a successful decode it returns the id
produced by glGenTextures (modelled by genID), narrowed from GLuint to the
int return type; on failure it prints the diagnostic and returns -1. The
result pairs the returned int with the printed lines. -/
def loadTexture (filePath : String) (decoded : Option ImageData) (genID : Nat) :
    Int × List String :=
  match decoded with
  | some _ => (toGLint genID, [])
  | none => (-1, [failMsg filePath])

/-- The C++ conversion from int to GLuint (used when the result of
loadTexture is assigned to a GLuint variable): reduction modulo 2 ^ 32. -/
def toGLuint (i : Int) : Nat := (i % (2 ^ 32)).toNat

/-- A zero-initialized global Sprite (the state of the globals before main
touches them). -/
def initSprite : Sprite :=
  { VAO := 0, texID := 0, position := ⟨0, 0, 0⟩, dimensions := ⟨0, 0, 0⟩, angle := 0 }

/-- The setup part of main: load the two textures (their int results are the
arguments), set up the spaceship at (WIDTH / 2, 50) with size 50 by 50, then
call resetComet. As in the source, the comet texture result is never bound
to the comet, which keeps its zero-initialized texID. -/
def initGame (spaceshipTex cometTex : Int) (r : Nat) : GameState :=
  let st : GameState :=
    { spaceship := initSprite, comet := initSprite, gameOver := false, spaceshipLane := 1 }
  let st :=
    { st with spaceship :=
        st.spaceship.setupSprite (toGLuint spaceshipTex) ⟨WIDTH / 2, 50, 0⟩ ⟨50, 50, 1⟩ }
  let _ := toGLuint cometTex
  resetComet r st

/-- One event the game loop can process: an updateGame call or a key event
delivered by glfwPollEvents. -/
inductive Step : GameState → GameState → Prop where
  | update (dt : ℚ) (r : Nat) (st : GameState) : Step st (updateGame dt r st)
  | key (k : Key) (a : KeyAction) (st : GameState) : Step st (key_callback k a st)

/-- States reachable from the state main sets up, by any interleaving of
updates and key events. -/
def Reachable (spaceshipTex cometTex : Int) (r : Nat) (st : GameState) : Prop :=
  Relation.ReflTransGen Step (initGame spaceshipTex cometTex r) st

/-- A concrete running state used in concrete instantiations: spaceship at
lane 1 as main places it, comet high above, game running. -/
def stRun : GameState :=
  { spaceship :=
      { VAO := 0, texID := 0, position := ⟨400, 50, 0⟩, dimensions := ⟨50, 50, 1⟩, angle := 0 }
    comet :=
      { VAO := 0, texID := 0, position := ⟨400, 650, 0⟩, dimensions := ⟨50, 50, 1⟩, angle := 0 }
    gameOver := false
    spaceshipLane := 1 }

/-- The same concrete state with the game already over. -/
def stOver : GameState := { stRun with gameOver := true }

/-- The update leaves the spaceship record untouched. -/
lemma updateGame_spaceship (dt : ℚ) (r : Nat) (st : GameState) :
    (updateGame dt r st).spaceship = st.spaceship := by
  simp only [updateGame, resetComet, Sprite.setupSprite]
  split <;> split <;> rfl

/-- The update leaves the lane variable untouched. -/
lemma updateGame_spaceshipLane (dt : ℚ) (r : Nat) (st : GameState) :
    (updateGame dt r st).spaceshipLane = st.spaceshipLane := by
  simp only [updateGame, resetComet, Sprite.setupSprite]
  split <;> split <;> rfl

/-- Characterization of the flag after an update: it is forced to true
exactly by the collision condition evaluated at the moved comet height. -/
lemma updateGame_gameOver (dt : ℚ) (r : Nat) (st : GameState) :
    (updateGame dt r st).gameOver =
      if st.comet.position.y - 300 * dt <
           st.spaceship.position.y + st.spaceship.dimensions.y ∧
         st.comet.position.y - 300 * dt >
           st.spaceship.position.y - st.comet.dimensions.y ∧
         st.comet.position.x = st.spaceship.position.x
      then true else st.gameOver := by
  simp only [updateGame, resetComet, Sprite.setupSprite]
  split <;> split <;> rfl

/-- Characterization of the comet height after an update. -/
lemma updateGame_comet_y (dt : ℚ) (r : Nat) (st : GameState) :
    (updateGame dt r st).comet.position.y =
      if st.comet.position.y - 300 * dt < -50 then HEIGHT + 50
      else st.comet.position.y - 300 * dt := by
  simp only [updateGame, resetComet, Sprite.setupSprite]
  split <;> split <;> rfl

/-- Characterization of the comet x after an update. -/
lemma updateGame_comet_x (dt : ℚ) (r : Nat) (st : GameState) :
    (updateGame dt r st).comet.position.x =
      if st.comet.position.y - 300 * dt < -50 then laneCenter ((r % 3 : Nat) : Int)
      else st.comet.position.x := by
  simp only [updateGame, resetComet, Sprite.setupSprite]
  split <;> split <;> rfl

/-- The key handler either does nothing, or moves one lane left when the
lane is positive, or moves one lane right when the lane is below 2. -/
lemma key_callback_cases (k : Key) (a : KeyAction) (st : GameState) :
    key_callback k a st = st ∨
    (st.spaceshipLane > 0 ∧
      key_callback k a st = moveSpaceship (st.spaceshipLane - 1) st) ∨
    (st.spaceshipLane < 2 ∧
      key_callback k a st = moveSpaceship (st.spaceshipLane + 1) st) := by
  cases k <;> cases a <;>
    simp only [key_callback, moveSpaceship] <;>
    split <;> simp_all <;> split <;> simp_all

/-- The key handler never touches the game-over flag. -/
lemma key_callback_gameOver (k : Key) (a : KeyAction) (st : GameState) :
    (key_callback k a st).gameOver = st.gameOver := by
  rcases key_callback_cases k a st with hc | ⟨_, hc⟩ | ⟨_, hc⟩ <;> rw [hc] <;> rfl

/-- The spaceship invariant: the lane is one of 0, 1, 2, the x coordinate
is the center of that lane, and the y coordinate is the fixed 50. -/
def SpaceshipSnapped (st : GameState) : Prop :=
  (st.spaceshipLane = 0 ∨ st.spaceshipLane = 1 ∨ st.spaceshipLane = 2) ∧
  st.spaceship.position.x = laneCenter st.spaceshipLane ∧
  st.spaceship.position.y = 50

/-- The state main sets up satisfies the spaceship invariant: lane 1, and
the initial x of WIDTH / 2 equals the center of lane 1. -/
lemma snapped_init (t1 t2 : Int) (r : Nat) : SpaceshipSnapped (initGame t1 t2 r) := by
  refine ⟨Or.inr (Or.inl rfl), ?_, rfl⟩
  norm_num [initGame, resetComet, Sprite.setupSprite, initSprite, laneCenter,
    LANE_WIDTH, WIDTH]

/-- Every loop event preserves the spaceship invariant. -/
lemma snapped_step (st st2 : GameState) (h : Step st st2) (hs : SpaceshipSnapped st) :
    SpaceshipSnapped st2 := by
  obtain ⟨hlane, hx, hy⟩ := hs
  cases h with
  | update dt r st =>
      exact ⟨by rw [updateGame_spaceshipLane]; exact hlane,
             by rw [updateGame_spaceshipLane, updateGame_spaceship]; exact hx,
             by rw [updateGame_spaceship]; exact hy⟩
  | key k a st =>
      rcases key_callback_cases k a st with hc | ⟨hgt, hc⟩ | ⟨hlt, hc⟩
      · rw [hc]; exact ⟨hlane, hx, hy⟩
      · rw [hc]
        refine ⟨?_, rfl, hy⟩
        simp only [moveSpaceship]
        rcases hlane with h0 | h1 | h2 <;> omega
      · rw [hc]
        refine ⟨?_, rfl, hy⟩
        simp only [moveSpaceship]
        rcases hlane with h0 | h1 | h2 <;> omega

/-- Every reachable state satisfies the spaceship invariant. -/
lemma snapped_reachable (t1 t2 : Int) (r : Nat) (st : GameState)
    (h : Reachable t1 t2 r st) : SpaceshipSnapped st := by
  induction h with
  | refl => exact snapped_init t1 t2 r
  | tail _ hbc ih => exact snapped_step _ _ hbc ih

/-- C1 (counterexample): as stated, the claim fails on the code. The
function updateGame does not test the game-over flag: in the concrete state
stOver, whose flag is true, an update with deltaTime 1 still moves the comet
from height 650 to height 350. -/
theorem update_in_gameOver_moves_comet :
    stOver.gameOver = true ∧ (0 : ℚ) ≤ 1 ∧
    (updateGame 1 0 stOver).comet.position.y ≠ stOver.comet.position.y := by
  refine ⟨rfl, by norm_num, ?_⟩
  rw [updateGame_comet_y]
  norm_num [stOver, stRun, HEIGHT]

/-- C1 (amended): calling updateGame while the flag is already true leaves
the spaceship position, the current lane and the flag unchanged (the flag
stays true), though the comet still moves. -/
theorem update_in_gameOver_preserves_rest (st : GameState) (dt : ℚ) (r : Nat)
    (h : st.gameOver = true) :
    (updateGame dt r st).gameOver = true ∧
    (updateGame dt r st).spaceship.position = st.spaceship.position ∧
    (updateGame dt r st).spaceshipLane = st.spaceshipLane := by
  refine ⟨?_, by rw [updateGame_spaceship], updateGame_spaceshipLane dt r st⟩
  rw [updateGame_gameOver]
  split <;> simp [h]

/-- C1 (witness for the amended theorem) at the concrete state stOver. -/
theorem update_in_gameOver_preserves_rest_witness :
    stOver.gameOver = true ∧
    ((updateGame 1 0 stOver).gameOver = true ∧
     (updateGame 1 0 stOver).spaceship.position = stOver.spaceship.position ∧
     (updateGame 1 0 stOver).spaceshipLane = stOver.spaceshipLane) :=
  ⟨rfl, update_in_gameOver_preserves_rest stOver 1 0 rfl⟩

/-- C2 (counterexample): as stated, the claim fails on the code. The
function moveSpaceship applies the out-of-range lane 5 unchecked, mutating
the lane variable, and the key handler still moves the spaceship on a left
press in the concrete state stOver even though its game-over flag is true. -/
theorem moveSpaceship_unvalidated :
    (moveSpaceship 5 stRun).spaceshipLane = 5 ∧ stRun.spaceshipLane = 1 ∧
    stOver.gameOver = true ∧
    (key_callback Key.left KeyAction.press stOver).spaceshipLane = 0 ∧
    stOver.spaceshipLane = 1 := by
  refine ⟨rfl, rfl, rfl, ?_, rfl⟩
  decide

/-- C2 (amended): the range guarantee lives in the key handler, not in
moveSpaceship: starting from a lane in 0..2, a left press at lane 0 and a
right press at lane 2 leave the state unchanged, and any key event keeps the
lane within 0..2. The handler performs no game-over check. -/
theorem key_callback_boundary_guards (st : GameState) (a : KeyAction) (k : Key)
    (h0 : 0 ≤ st.spaceshipLane) (h2 : st.spaceshipLane ≤ 2) :
    (st.spaceshipLane = 0 → key_callback Key.left a st = st) ∧
    (st.spaceshipLane = 2 → key_callback Key.right a st = st) ∧
    (0 ≤ (key_callback k a st).spaceshipLane ∧
     (key_callback k a st).spaceshipLane ≤ 2) := by
  refine ⟨?_, ?_, ?_⟩
  · intro hL
    cases a <;> simp [key_callback, hL]
  · intro hL
    cases a <;> simp [key_callback, hL]
  · rcases key_callback_cases k a st with hc | ⟨hgt, hc⟩ | ⟨hlt, hc⟩ <;> rw [hc]
    · exact ⟨h0, h2⟩
    · simp only [moveSpaceship]
      omega
    · simp only [moveSpaceship]
      omega

/-- C2 (witness for the amended theorem) at the concrete state stRun. -/
theorem key_callback_boundary_guards_witness :
    (0 ≤ stRun.spaceshipLane ∧ stRun.spaceshipLane ≤ 2) ∧
    ((stRun.spaceshipLane = 0 →
        key_callback Key.left KeyAction.press stRun = stRun) ∧
     (stRun.spaceshipLane = 2 →
        key_callback Key.right KeyAction.press stRun = stRun) ∧
     (0 ≤ (key_callback Key.left KeyAction.press stRun).spaceshipLane ∧
      (key_callback Key.left KeyAction.press stRun).spaceshipLane ≤ 2)) :=
  ⟨⟨by norm_num [stRun], by norm_num [stRun]⟩,
   key_callback_boundary_guards stRun KeyAction.press Key.left
     (by norm_num [stRun]) (by norm_num [stRun])⟩

/-- C3: starting from a running state, an update sets the game-over flag
exactly when, at the moved comet height, the comet is below the top of the
spaceship band, above its bottom, and at exactly the spaceship x; if any
conjunct fails the flag stays false. -/
theorem update_gameOver_iff_collision (st : GameState) (dt : ℚ) (r : Nat)
    (h : st.gameOver = false) :
    (updateGame dt r st).gameOver = true ↔
      (st.comet.position.y - 300 * dt <
         st.spaceship.position.y + st.spaceship.dimensions.y ∧
       st.comet.position.y - 300 * dt >
         st.spaceship.position.y - st.comet.dimensions.y ∧
       st.comet.position.x = st.spaceship.position.x) := by
  rw [updateGame_gameOver]
  split <;> simp_all

/-- C3 (witness): in the concrete running state stRun, an update with
deltaTime 2 brings the comet to height 50, inside the band and at the
spaceship x, and indeed sets the flag. -/
theorem update_gameOver_iff_collision_witness :
    stRun.gameOver = false ∧
    ((updateGame 2 0 stRun).gameOver = true ↔
      (stRun.comet.position.y - 300 * 2 <
         stRun.spaceship.position.y + stRun.spaceship.dimensions.y ∧
       stRun.comet.position.y - 300 * 2 >
         stRun.spaceship.position.y - stRun.comet.dimensions.y ∧
       stRun.comet.position.x = stRun.spaceship.position.x)) :=
  ⟨rfl, update_gameOver_iff_collision stRun 2 0 rfl⟩

/-- C4: every call of updateGame first moves the comet down by exactly
300 * deltaTime, then runs the collision test at that moved height, then
runs the respawn test at that moved height; the flag depends on the moved
height (not the respawned one) and the final comet coordinates depend on the
respawn test, so the order is move, collision test, respawn test, with both
tests run on every call. -/
theorem update_phase_order (st : GameState) (dt : ℚ) (r : Nat) :
    (updateGame dt r st).gameOver =
      (if st.comet.position.y - 300 * dt <
            st.spaceship.position.y + st.spaceship.dimensions.y ∧
          st.comet.position.y - 300 * dt >
            st.spaceship.position.y - st.comet.dimensions.y ∧
          st.comet.position.x = st.spaceship.position.x
       then true else st.gameOver) ∧
    (updateGame dt r st).comet.position.y =
      (if st.comet.position.y - 300 * dt < -50 then HEIGHT + 50
       else st.comet.position.y - 300 * dt) ∧
    (updateGame dt r st).comet.position.x =
      (if st.comet.position.y - 300 * dt < -50 then laneCenter ((r % 3 : Nat) : Int)
       else st.comet.position.x) ∧
    (updateGame dt r st).spaceship = st.spaceship :=
  ⟨updateGame_gameOver dt r st, updateGame_comet_y dt r st,
   updateGame_comet_x dt r st, updateGame_spaceship dt r st⟩

/-- C5: an update respawns the comet exactly when the moved height is below
-50: in that case the new height is HEIGHT + 50 and the new x is the center
of one of the three lanes; otherwise the comet keeps its x and its height is
the moved height. -/
theorem update_respawn_spec (st : GameState) (dt : ℚ) (r : Nat) :
    (st.comet.position.y - 300 * dt < -50 →
      (updateGame dt r st).comet.position.y = HEIGHT + 50 ∧
      ∃ lane : Nat, lane < 3 ∧
        (updateGame dt r st).comet.position.x = laneCenter (lane : Int)) ∧
    (¬ st.comet.position.y - 300 * dt < -50 →
      (updateGame dt r st).comet.position.y = st.comet.position.y - 300 * dt ∧
      (updateGame dt r st).comet.position.x = st.comet.position.x) := by
  constructor
  · intro hlow
    refine ⟨by rw [updateGame_comet_y, if_pos hlow], r % 3, Nat.mod_lt r (by norm_num), ?_⟩
    rw [updateGame_comet_x, if_pos hlow]
  · intro hhigh
    exact ⟨by rw [updateGame_comet_y, if_neg hhigh],
           by rw [updateGame_comet_x, if_neg hhigh]⟩

/-- C6: for a lane L in 0, 1, 2, moveSpaceship L snaps the spaceship x to
LANE_WIDTH / 2 + L * LANE_WIDTH, leaves its y unchanged, records L as the
current lane, and is idempotent. -/
theorem changeLane_snaps_idempotent (st : GameState) (L : Int)
    (h : L = 0 ∨ L = 1 ∨ L = 2) :
    (moveSpaceship L st).spaceship.position.x = LANE_WIDTH / 2 + (L : ℚ) * LANE_WIDTH ∧
    (moveSpaceship L st).spaceship.position.y = st.spaceship.position.y ∧
    (moveSpaceship L st).spaceshipLane = L ∧
    moveSpaceship L (moveSpaceship L st) = moveSpaceship L st :=
  ⟨rfl, rfl, rfl, rfl⟩

/-- C6 (witness) at lane 1 and the concrete state stRun. -/
theorem changeLane_snaps_idempotent_witness :
    ((1 : Int) = 0 ∨ (1 : Int) = 1 ∨ (1 : Int) = 2) ∧
    ((moveSpaceship 1 stRun).spaceship.position.x =
        LANE_WIDTH / 2 + ((1 : Int) : ℚ) * LANE_WIDTH ∧
     (moveSpaceship 1 stRun).spaceship.position.y = stRun.spaceship.position.y ∧
     (moveSpaceship 1 stRun).spaceshipLane = 1 ∧
     moveSpaceship 1 (moveSpaceship 1 stRun) = moveSpaceship 1 stRun) :=
  ⟨Or.inr (Or.inl rfl), changeLane_snaps_idempotent stRun 1 (Or.inr (Or.inl rfl))⟩

/-- C7: every state reachable from the state main sets up keeps the
spaceship lane in 0, 1, 2, the spaceship x at the center of that lane and
its y at the fixed 50; the initial lane is 1, the initial x is WIDTH / 2,
and the center of lane 1 coincides with WIDTH / 2. -/
theorem reachable_spaceship_invariant (t1 t2 : Int) (r : Nat) (st : GameState)
    (h : Reachable t1 t2 r st) :
    ((st.spaceshipLane = 0 ∨ st.spaceshipLane = 1 ∨ st.spaceshipLane = 2) ∧
     st.spaceship.position.x = laneCenter st.spaceshipLane ∧
     st.spaceship.position.y = 50) ∧
    (initGame t1 t2 r).spaceshipLane = 1 ∧
    (initGame t1 t2 r).spaceship.position.x = WIDTH / 2 ∧
    laneCenter 1 = WIDTH / 2 := by
  refine ⟨snapped_reachable t1 t2 r st h, rfl, rfl, ?_⟩
  norm_num [laneCenter, LANE_WIDTH, WIDTH]

/-- C7 (witness): the state after one left key press from the initial state
is reachable and satisfies the invariant. -/
theorem reachable_spaceship_invariant_witness :
    Reachable 0 0 0 (key_callback Key.left KeyAction.press (initGame 0 0 0)) ∧
    ((((key_callback Key.left KeyAction.press (initGame 0 0 0)).spaceshipLane = 0 ∨
       (key_callback Key.left KeyAction.press (initGame 0 0 0)).spaceshipLane = 1 ∨
       (key_callback Key.left KeyAction.press (initGame 0 0 0)).spaceshipLane = 2) ∧
      (key_callback Key.left KeyAction.press (initGame 0 0 0)).spaceship.position.x =
        laneCenter (key_callback Key.left KeyAction.press (initGame 0 0 0)).spaceshipLane ∧
      (key_callback Key.left KeyAction.press (initGame 0 0 0)).spaceship.position.y = 50) ∧
     (initGame 0 0 0).spaceshipLane = 1 ∧
     (initGame 0 0 0).spaceship.position.x = WIDTH / 2 ∧
     laneCenter 1 = WIDTH / 2) :=
  ⟨Relation.ReflTransGen.single
      (Step.key Key.left KeyAction.press (initGame 0 0 0)),
   reachable_spaceship_invariant 0 0 0 _
     (Relation.ReflTransGen.single
       (Step.key Key.left KeyAction.press (initGame 0 0 0)))⟩

/-- C8: the game-over flag starts false in the state main sets up, and
every operation of the game (update, lane move, comet respawn, key event)
keeps it true once it is true; no operation ever resets it. -/
theorem gameOver_monotone (st : GameState) (dt : ℚ) (r r2 : Nat) (L : Int)
    (k : Key) (a : KeyAction) (t1 t2 : Int) (r0 : Nat)
    (h : st.gameOver = true) :
    (initGame t1 t2 r0).gameOver = false ∧
    (updateGame dt r st).gameOver = true ∧
    (moveSpaceship L st).gameOver = true ∧
    (resetComet r2 st).gameOver = true ∧
    (key_callback k a st).gameOver = true := by
  refine ⟨rfl, ?_, h, h, ?_⟩
  · rw [updateGame_gameOver]
    split <;> simp [h]
  · rw [key_callback_gameOver]
    exact h

/-- C8 (witness) at the concrete state stOver. -/
theorem gameOver_monotone_witness :
    stOver.gameOver = true ∧
    ((initGame 0 0 0).gameOver = false ∧
     (updateGame 1 0 stOver).gameOver = true ∧
     (moveSpaceship 0 stOver).gameOver = true ∧
     (resetComet 0 stOver).gameOver = true ∧
     (key_callback Key.left KeyAction.press stOver).gameOver = true) :=
  ⟨rfl, gameOver_monotone stOver 1 0 0 0 Key.left KeyAction.press 0 0 0 rfl⟩

/-- C9 (counterexample): as stated, the claim fails on the code. The
return statement of loadTexture narrows the GLuint texture id to int, so at
the id 2 ^ 32 - 1 a successful decode (no diagnostic printed) also returns
the sentinel -1: the sentinel does not appear exactly on decode failure. -/
theorem loadTexture_success_can_hit_sentinel :
    (loadTexture "tex.png" (some ⟨1, 1, 3⟩) (2 ^ 32 - 1)).1 = -1 ∧
    (loadTexture "tex.png" (some ⟨1, 1, 3⟩) (2 ^ 32 - 1)).2 = [] := by
  constructor
  · norm_num [loadTexture, toGLint]
  · rfl

/-- C9 (amended): loadTexture prints the diagnostic and returns the
sentinel -1 whenever the decode fails, and a successful decode prints
nothing and returns the generated id narrowed to int, which differs from
the sentinel for every id whose 32-bit value is not 2 ^ 32 - 1; the failure
is non-fatal: the setup of main still runs, binding the spaceship to the
wrapped sentinel handle, and the game starts running. -/
theorem loadTexture_sentinel_nonfatal (filePath : String) (img : ImageData)
    (genID : Nat) (ct : Int) (r : Nat) (hg : genID % 2 ^ 32 ≠ 2 ^ 32 - 1) :
    (loadTexture filePath none genID).1 = -1 ∧
    (loadTexture filePath none genID).2 = [failMsg filePath] ∧
    (loadTexture filePath (some img) genID).1 ≠ -1 ∧
    (loadTexture filePath (some img) genID).2 = [] ∧
    (initGame (loadTexture filePath none genID).1 ct r).spaceship.texID =
      toGLuint (-1) ∧
    (initGame (loadTexture filePath none genID).1 ct r).gameOver = false := by
  refine ⟨rfl, rfl, ?_, rfl, rfl, rfl⟩
  simp only [loadTexture, toGLint]
  have h32 : genID % 2 ^ 32 < 2 ^ 32 := Nat.mod_lt _ (by norm_num)
  split <;> omega

/-- C9 (witness for the amended theorem) at the generated id 7. -/
theorem loadTexture_sentinel_nonfatal_witness :
    (7 : Nat) % 2 ^ 32 ≠ 2 ^ 32 - 1 ∧
    ((loadTexture "spaceship.png" none 7).1 = -1 ∧
     (loadTexture "spaceship.png" none 7).2 = [failMsg "spaceship.png"] ∧
     (loadTexture "spaceship.png" (some ⟨1, 1, 3⟩) 7).1 ≠ -1 ∧
     (loadTexture "spaceship.png" (some ⟨1, 1, 3⟩) 7).2 = [] ∧
     (initGame (loadTexture "spaceship.png" none 7).1 0 0).spaceship.texID =
       toGLuint (-1) ∧
     (initGame (loadTexture "spaceship.png" none 7).1 0 0).gameOver = false) :=
  ⟨by norm_num,
   loadTexture_sentinel_nonfatal "spaceship.png" ⟨1, 1, 3⟩ 7 0 0 (by norm_num)⟩

/-- C10: an update never touches the spaceship (position, dimensions,
angle, texture, vertex array) nor the current lane; only the comet and the
game-over flag can change. -/
theorem update_preserves_spaceship (st : GameState) (dt : ℚ) (r : Nat) :
    (updateGame dt r st).spaceship = st.spaceship ∧
    (updateGame dt r st).spaceshipLane = st.spaceshipLane :=
  ⟨updateGame_spaceship dt r st, updateGame_spaceshipLane dt r st⟩
